import Mathlib

/-!
Verification development for the seriphxyz react hook bridge
(src/src/index.ts).  The repository exposes nine React hooks
(useSubscribe, useForm, useReactions, useComments, useWaitlist, useViews,
useFeedback, usePoll, useAnnouncements); each one constructs a controller
from the external core package, registers setState as the controller
listener inside a useEffect keyed on the configuration tuple, forwards user
actions to the controller through useCallback wrappers, and deregisters the
listener in the effect cleanup.

The embedding has two layers.

The lifecycle layer models one hook instance as a state machine driven by
events: a re-render with a given options record (React renders the component,
computing the hook return value, and then flushes the effect), a snapshot
notification from the controller of a given generation (setState followed by
a re-render), and unmount (React runs the pending effect cleanup).  The nine
hooks share one machine, parameterised by a descriptor holding exactly the
data in which the hook bodies differ: the dependency array of the effect,
the auto trigger condition, the useState initialiser, and the shape of the
returned state record.  Controller instances are identified by generation
numbers; constructions, listener registrations, deregistrations and the
automatic fetch or record calls made inside the effect are recorded in a log.

The action layer embeds the useCallback wrappers directly: each wrapper
receives the current content of controllerRef (none before the first effect
run) and its arguments, and yields the list of controller method calls it
makes together with the settled result of the awaited promise.  Controller
methods themselves are opaque function fields of the controller records,
since the core package is outside this repository.
-/

set_option maxHeartbeats 1000000

namespace SeriphReact

/-- Status enumeration shared by all controller snapshots (the
ControllerStatus type re-exported from the core package). -/
inductive ControllerStatus
  | idle
  | loading
  | success
  | error
deriving DecidableEq

/-- Opaque error value carried in the error field of every snapshot. -/
structure ErrV where
  msg : String
deriving DecidableEq

/-- Comment record from the core package; fields as used in the
src/src/index.ts doc examples (id, authorName, content). -/
structure Comment where
  id : String
  authorName : String
  content : String
deriving DecidableEq

/-- Announcement record from the core package; fields as used in the
src/src/index.ts doc examples (id, content). -/
structure Announcement where
  id : Nat
  content : String
deriving DecidableEq

/-- Poll payload from the core package (PollWithResults), opaque here. -/
structure PollWithResults where
  question : String
deriving DecidableEq

/-- SubscribeState, shape from the useState initialiser at
src/src/index.ts lines 132 to 136. -/
structure SubscribeState where
  status : ControllerStatus
  message : Option String
  error : Option ErrV
deriving DecidableEq

/-- FormState, shape from the useState initialiser at lines 194 to 198. -/
structure FormState where
  status : ControllerStatus
  message : Option String
  error : Option ErrV
deriving DecidableEq

/-- ReactionsState, shape from the useState initialiser at lines 258 to 263.
The counts record of the source is modelled as an association list. -/
structure ReactionsState where
  counts : List (String × Nat)
  userReactions : List String
  status : ControllerStatus
  error : Option ErrV
deriving DecidableEq

/-- CommentsState, shape from the useState initialiser at lines 337 to 341. -/
structure CommentsState where
  comments : List Comment
  status : ControllerStatus
  error : Option ErrV
deriving DecidableEq

/-- WaitlistState, shape from the useState initialiser at lines 399 to 404. -/
structure WaitlistState where
  status : ControllerStatus
  message : Option String
  position : Option Nat
  error : Option ErrV
deriving DecidableEq

/-- ViewCountsState, shape from the useState initialiser at lines 461 to 467. -/
structure ViewCountsState where
  pageId : String
  views : Nat
  uniqueVisitors : Nat
  status : ControllerStatus
  error : Option ErrV
deriving DecidableEq

/-- FeedbackState, shape from the useState initialiser at lines 525 to 529. -/
structure FeedbackState where
  status : ControllerStatus
  message : Option String
  error : Option ErrV
deriving DecidableEq

/-- PollState, shape from the useState initialiser at lines 595 to 599. -/
structure PollState where
  poll : Option PollWithResults
  status : ControllerStatus
  error : Option ErrV
deriving DecidableEq

/-- AnnouncementsState, shape from the useState initialiser at lines 667 to
672; the dismissed set is modelled as a list of announcement ids. -/
structure AnnouncementsState where
  announcements : List Announcement
  dismissed : List Nat
  status : ControllerStatus
  error : Option ErrV
deriving DecidableEq

/-- State fields of the useViews return value (line 492: views,
uniqueVisitors, status and error are returned individually; pageId is not
returned). -/
structure ViewsReturn where
  views : Nat
  uniqueVisitors : Nat
  status : ControllerStatus
  error : Option ErrV
deriving DecidableEq

/-- State fields of the usePoll return value (line 626: the PollState fields
are spread and hasVoted is added). -/
structure PollReturn where
  poll : Option PollWithResults
  status : ControllerStatus
  error : Option ErrV
  hasVoted : Bool
deriving DecidableEq

/-- State fields of the useAnnouncements return value (line 700:
announcements comes from getVisibleAnnouncements, status and error from the
mirrored state). -/
structure AnnReturn where
  announcements : List Announcement
  status : ControllerStatus
  error : Option ErrV
deriving DecidableEq

/-- Union of the option fields the nine hooks read.  siteKey and endpoint
are the shared SeriphConfig fields (siteKey optional via the meta tag
fallback, endpoint optional); featureId stands for the per feature
identifier (formSlug, contentId, pageId or slug) and is ignored by the hooks
that do not take one; autoFlag is the autoFetch or autoRecord toggle, none
when the caller omitted it; extra stands for every other property of the
options object, so that re-renders changing only unrelated options are
expressible. -/
structure Options where
  siteKey : Option String
  endpoint : Option String
  featureId : String
  autoFlag : Option Bool
  extra : Nat
deriving DecidableEq

/-- Auto trigger condition of the read oriented hooks: the source guards the
initial fetch or record call with a strict inequality against false
(for example line 273, options.autoFetch !== false), so an absent flag and
an explicit true both enable it. -/
def autoOn (o : Options) : Bool :=
  match o.autoFlag with
  | some false => false
  | _ => true

/-- Per hook descriptor: the data in which the nine hook bodies differ.
depsOf is the useEffect dependency array (elements compared like Object.is
on the primitive values), autoTrigger says whether the effect makes the
automatic read call under the given options, initState is the useState
initialiser, and renderOut computes the state fields of the return value
from the current content of controllerRef (a generation number, none before
the first effect) and the mirrored state. -/
structure HookDef (σ Ret : Type) where
  depsOf : Options → List (Option String)
  autoTrigger : Options → Bool
  initState : Options → σ
  renderOut : Option Nat → σ → Ret

/-- Event log of one hook instance: controller construction (with the
options in force during that effect run), listener registration, listener
deregistration, and the automatic fetch or record call of the effect. -/
inductive LogEv
  | construct (g : Nat) (o : Options)
  | subscribeL (g : Nat)
  | unsubL (g : Nat)
  | autoCall (g : Nat)
deriving DecidableEq

/-- Events driving one hook instance. -/
inductive Ev (σ : Type)
  | render (o : Options)
  | notify (g : Nat) (s : σ)
  | unmount
deriving DecidableEq

/-- Machine state of one hook instance.  controllerRef mirrors the useRef
cell (the generation of the controller it holds), state the useState cell,
activeSub the generation whose listener registration is currently live (none
after the cleanup ran), prevDeps the dependency array stored by React for
the effect, lastOpts the options of the most recent render, output the state
portion of the most recent render return value, nextGen the next fresh
generation, and log the recorded controller lifecycle events. -/
structure Bridge (σ Ret : Type) where
  controllerRef : Option Nat
  state : σ
  activeSub : Option Nat
  prevDeps : Option (List (Option String))
  lastOpts : Option Options
  output : Option Ret
  nextGen : Nat
  log : List LogEv
deriving DecidableEq

/-- Effect cleanup: the source cleanup is exactly the deregistration
function returned by controller.subscribe (for example line 144), so it
clears the live registration and logs the deregistration; it does not touch
controllerRef. -/
def cleanupPhase {σ Ret : Type} (b : Bridge σ Ret) : Bridge σ Ret :=
  match b.activeSub with
  | none => b
  | some g => { b with activeSub := none, log := b.log ++ [LogEv.unsubL g] }

/-- Effect body (for example lines 139 to 144 and, for the read oriented
hooks, the guarded fetch or record call at lines 272 to 275): construct a
fresh controller, store it in controllerRef, register the listener, and make
the automatic read call when the auto trigger condition holds. -/
def constructPhase {σ Ret : Type} (H : HookDef σ Ret) (o : Options)
    (b : Bridge σ Ret) : Bridge σ Ret :=
  { b with
    controllerRef := some b.nextGen
    activeSub := some b.nextGen
    nextGen := b.nextGen + 1
    prevDeps := some (H.depsOf o)
    log := b.log ++ [LogEv.construct b.nextGen o, LogEv.subscribeL b.nextGen] ++
      (if H.autoTrigger o then [LogEv.autoCall b.nextGen] else []) }

/-- React effect flush after a render: when the stored dependency array
equals the new one the effect is skipped, otherwise the previous cleanup
runs and then the effect body. -/
def flushEffect {σ Ret : Type} (H : HookDef σ Ret) (o : Options)
    (b : Bridge σ Ret) : Bridge σ Ret :=
  if b.prevDeps = some (H.depsOf o) then b
  else constructPhase H o (cleanupPhase b)

/-- One render with options o: the hook body runs first (computing the
return value from the current controllerRef and state, before any effect of
this render), then React flushes the effect. -/
def renderStep {σ Ret : Type} (H : HookDef σ Ret) (o : Options)
    (b : Bridge σ Ret) : Bridge σ Ret :=
  flushEffect H o
    { b with lastOpts := some o, output := some (H.renderOut b.controllerRef b.state) }

/-- Event step.  A notification from generation g runs setState and triggers
a re-render (with the options of the previous render) only when the listener
registration of g is still live; a notification from any other generation
leaves the machine untouched, because its listener was never registered or
was deregistered.  Unmount runs the pending cleanup. -/
def step {σ Ret : Type} (H : HookDef σ Ret) (b : Bridge σ Ret) :
    Ev σ → Bridge σ Ret
  | Ev.render o => renderStep H o b
  | Ev.notify g s =>
      if b.activeSub = some g then
        match b.lastOpts with
        | some o => renderStep H o { b with state := s }
        | none => { b with state := s }
      else b
  | Ev.unmount => cleanupPhase b

/-- Machine state before the first render: empty ref, initial useState
value, nothing registered, no stored deps, no render yet. -/
def fresh {σ Ret : Type} (H : HookDef σ Ret) (o : Options) : Bridge σ Ret :=
  { controllerRef := none
    state := H.initState o
    activeSub := none
    prevDeps := none
    lastOpts := none
    output := none
    nextGen := 0
    log := [] }

/-- A run of one hook instance: the first render with options o, then the
given events. -/
def run {σ Ret : Type} (H : HookDef σ Ret) (o : Options)
    (evs : List (Ev σ)) : Bridge σ Ret :=
  evs.foldl (step H) (renderStep H o (fresh H o))

/-- Hook descriptor of useSubscribe (lines 130 to 156): deps are siteKey and
endpoint (line 145), no auto trigger, initial state idle with null message
and error, return value spreads the state. -/
def subscribeHook : HookDef SubscribeState SubscribeState where
  depsOf o := [o.siteKey, o.endpoint]
  autoTrigger _ := false
  initState _ := { status := ControllerStatus.idle, message := none, error := none }
  renderOut _ s := s

/-- Hook descriptor of useForm (lines 192 to 218): deps are siteKey,
endpoint and formSlug (line 207). -/
def formHook : HookDef FormState FormState where
  depsOf o := [o.siteKey, o.endpoint, some o.featureId]
  autoTrigger _ := false
  initState _ := { status := ControllerStatus.idle, message := none, error := none }
  renderOut _ s := s

/-- Hook descriptor of useReactions (lines 256 to 293): deps are siteKey,
endpoint and contentId (line 278), auto fetch guarded by
options.autoFetch !== false (line 273). -/
def reactionsHook : HookDef ReactionsState ReactionsState where
  depsOf o := [o.siteKey, o.endpoint, some o.featureId]
  autoTrigger := autoOn
  initState _ :=
    { counts := [], userReactions := [], status := ControllerStatus.idle, error := none }
  renderOut _ s := s

/-- Hook descriptor of useComments (lines 335 to 367): deps are siteKey,
endpoint and contentId (line 356), auto fetch guarded at line 351. -/
def commentsHook : HookDef CommentsState CommentsState where
  depsOf o := [o.siteKey, o.endpoint, some o.featureId]
  autoTrigger := autoOn
  initState _ := { comments := [], status := ControllerStatus.idle, error := none }
  renderOut _ s := s

/-- Hook descriptor of useWaitlist (lines 397 to 424): deps are siteKey and
endpoint (line 413), no auto trigger. -/
def waitlistHook : HookDef WaitlistState WaitlistState where
  depsOf o := [o.siteKey, o.endpoint]
  autoTrigger _ := false
  initState _ :=
    { status := ControllerStatus.idle, message := none, position := none, error := none }
  renderOut _ s := s

/-- Hook descriptor of useViews (lines 459 to 493): deps are siteKey,
endpoint and pageId (line 482), auto record guarded by
options.autoRecord !== false (line 477), initial state carries the pageId of
the first render, and the return value lists views, uniqueVisitors, status
and error individually (line 492). -/
def viewsHook : HookDef ViewCountsState ViewsReturn where
  depsOf o := [o.siteKey, o.endpoint, some o.featureId]
  autoTrigger := autoOn
  initState o :=
    { pageId := o.featureId, views := 0, uniqueVisitors := 0,
      status := ControllerStatus.idle, error := none }
  renderOut _ s :=
    { views := s.views, uniqueVisitors := s.uniqueVisitors,
      status := s.status, error := s.error }

/-- Hook descriptor of useFeedback (lines 523 to 549): deps are siteKey and
endpoint (line 538), no auto trigger. -/
def feedbackHook : HookDef FeedbackState FeedbackState where
  depsOf o := [o.siteKey, o.endpoint]
  autoTrigger _ := false
  initState _ := { status := ControllerStatus.idle, message := none, error := none }
  renderOut _ s := s

/-- Hook descriptor of usePoll (lines 593 to 627): deps are siteKey,
endpoint and slug (line 614), auto fetch guarded at line 609, and the return
value adds hasVoted computed at render time from the current controllerRef
(line 624: controllerRef.current?.hasVoted() ?? false).  The parameter pq
gives the hasVoted answer of the controller of each generation; the query
itself lives in the external core package. -/
def pollHook (pq : Nat → Bool) : HookDef PollState PollReturn where
  depsOf o := [o.siteKey, o.endpoint, some o.featureId]
  autoTrigger := autoOn
  initState _ := { poll := none, status := ControllerStatus.idle, error := none }
  renderOut r s :=
    { poll := s.poll, status := s.status, error := s.error,
      hasVoted := match r with | some g => pq g | none => false }

/-- Hook descriptor of useAnnouncements (lines 665 to 701): deps are siteKey
and endpoint (line 687), auto fetch guarded at line 682, and the returned
announcements field is computed at render time from the current
controllerRef (line 698:
controllerRef.current?.getVisibleAnnouncements() ?? []).  The parameter aq
gives the getVisibleAnnouncements answer of the controller of each
generation. -/
def annHook (aq : Nat → List Announcement) : HookDef AnnouncementsState AnnReturn where
  depsOf o := [o.siteKey, o.endpoint]
  autoTrigger := autoOn
  initState _ :=
    { announcements := [], dismissed := [], status := ControllerStatus.idle, error := none }
  renderOut r s :=
    { announcements := match r with | some g => aq g | none => [],
      status := s.status, error := s.error }

/-- Modelled from the spec: the core package getVisibleAnnouncements query,
described in section 6 of the spec as a synchronous query returning the
subset of announcements not yet dismissed; the query implementation itself
is outside this repository. -/
def visibleAnnouncements (s : AnnouncementsState) : List Announcement :=
  s.announcements.filter (fun a => decide (a.id ∉ s.dismissed))

/-- Recogniser of construction log events of generation g. -/
def isConstruct (g : Nat) : LogEv → Bool
  | LogEv.construct h _ => h == g
  | _ => false

/-- Recogniser of automatic read call log events of generation g. -/
def isAutoCall (g : Nat) : LogEv → Bool
  | LogEv.autoCall h => h == g
  | _ => false

/-- Recogniser of deregistration log events of generation g. -/
def isUnsub (g : Nat) : LogEv → Bool
  | LogEv.unsubL h => h == g
  | _ => false

/-- Recogniser of construction log events of any generation. -/
def isConstructAny : LogEv → Bool
  | LogEv.construct _ _ => true
  | _ => false

/-- Recogniser of deregistration log events of any generation. -/
def isUnsubAny : LogEv → Bool
  | LogEv.unsubL _ => true
  | _ => false

/-- Number of constructions of generation g in a log. -/
def cCount (g : Nat) (l : List LogEv) : Nat := l.countP (isConstruct g)

/-- Number of automatic read calls of generation g in a log. -/
def aCount (g : Nat) (l : List LogEv) : Nat := l.countP (isAutoCall g)

/-- Number of deregistrations of generation g in a log. -/
def uCount (g : Nat) (l : List LogEv) : Nat := l.countP (isUnsub g)

/-- Total number of controller constructions in a log. -/
def cCountAll (l : List LogEv) : Nat := l.countP isConstructAny

/-- Total number of listener deregistrations in a log. -/
def uCountAll (l : List LogEv) : Nat := l.countP isUnsubAny

/-- Settled result of an awaited controller promise: it either resolved or
rejected with an error value. -/
inductive PResult
  | resolved
  | rejected (e : ErrV)
deriving DecidableEq

/-- Options object of the postComment wrapper (line 358). -/
structure CommentOpts where
  authorEmail : Option String
  parentId : Option String
deriving DecidableEq

/-- Options object of the join wrapper (line 415). -/
structure JoinOpts where
  name : Option String
  source : Option String
deriving DecidableEq

/-- Options object of the feedback submit wrapper (line 540). -/
structure FbOpts where
  email : Option String
  pageUrl : Option String
deriving DecidableEq

/-- Controller method invocation with its exact arguments, as issued by the
action forwarding wrappers. -/
inductive MCall
  | submitEmail (email : String)
  | submitForm (data : List (String × String))
  | addR (ty : String)
  | removeR (ty : String)
  | postC (author : String) (content : String) (o : Option CommentOpts)
  | joinW (email : String) (o : Option JoinOpts)
  | recordV
  | fetchOp
  | submitFb (ty : String) (content : String) (o : Option FbOpts)
  | voteP (selectedOptions : List String)
  | dismissA (announcementId : Nat)
  | resetOp
deriving DecidableEq

/-- A recorded controller call: the generation of the controller it was made
on, and the method with its arguments. -/
abbrev CallRec := Nat × MCall

/-- SubscribeController as seen by the bridge: its generation and the opaque
behaviour of its submit method (the implementation lives in the external
core package). -/
structure SubscribeController where
  gen : Nat
  submitImpl : String → PResult

/-- FormController as seen by the bridge. -/
structure FormController where
  gen : Nat
  submitImpl : List (String × String) → PResult

/-- ReactionsController as seen by the bridge. -/
structure ReactionsController where
  gen : Nat
  addImpl : String → PResult
  removeImpl : String → PResult
  fetchImpl : PResult

/-- CommentsController as seen by the bridge. -/
structure CommentsController where
  gen : Nat
  postImpl : String → String → Option CommentOpts → PResult
  fetchImpl : PResult

/-- WaitlistController as seen by the bridge. -/
structure WaitlistController where
  gen : Nat
  joinImpl : String → Option JoinOpts → PResult

/-- ViewCountsController as seen by the bridge. -/
structure ViewCountsController where
  gen : Nat
  recordImpl : PResult
  fetchImpl : PResult

/-- FeedbackController as seen by the bridge. -/
structure FeedbackController where
  gen : Nat
  submitImpl : String → String → Option FbOpts → PResult

/-- PollController as seen by the bridge. -/
structure PollController where
  gen : Nat
  voteImpl : List String → PResult
  fetchImpl : PResult

/-- AnnouncementsController as seen by the bridge. -/
structure AnnouncementsController where
  gen : Nat
  dismissImpl : Nat → PResult
  fetchImpl : PResult

/-- The subscribe wrapper of useSubscribe (lines 147 to 149):
await controllerRef.current?.submit(email).  With an empty ref the optional
chain short circuits, no call is made and the awaited undefined resolves;
with a controller the submit method is invoked with the email verbatim and
the awaited promise settles exactly as the controller operation does. -/
def useSubscribe_subscribe (ref : Option SubscribeController) (email : String) :
    List CallRec × PResult :=
  match ref with
  | some c => ([(c.gen, MCall.submitEmail email)], c.submitImpl email)
  | none => ([], PResult.resolved)

/-- The reset wrapper of useSubscribe (lines 151 to 153):
controllerRef.current?.reset(). -/
def useSubscribe_reset (ref : Option SubscribeController) : List CallRec :=
  match ref with
  | some c => [(c.gen, MCall.resetOp)]
  | none => []

/-- The submit wrapper of useForm (lines 209 to 211). -/
def useForm_submit (ref : Option FormController) (data : List (String × String)) :
    List CallRec × PResult :=
  match ref with
  | some c => ([(c.gen, MCall.submitForm data)], c.submitImpl data)
  | none => ([], PResult.resolved)

/-- The reset wrapper of useForm (lines 213 to 215). -/
def useForm_reset (ref : Option FormController) : List CallRec :=
  match ref with
  | some c => [(c.gen, MCall.resetOp)]
  | none => []

/-- The addReaction wrapper of useReactions (lines 280 to 282). -/
def useReactions_addReaction (ref : Option ReactionsController) (ty : String) :
    List CallRec × PResult :=
  match ref with
  | some c => ([(c.gen, MCall.addR ty)], c.addImpl ty)
  | none => ([], PResult.resolved)

/-- The removeReaction wrapper of useReactions (lines 284 to 286). -/
def useReactions_removeReaction (ref : Option ReactionsController) (ty : String) :
    List CallRec × PResult :=
  match ref with
  | some c => ([(c.gen, MCall.removeR ty)], c.removeImpl ty)
  | none => ([], PResult.resolved)

/-- The refresh wrapper of useReactions (lines 288 to 290). -/
def useReactions_refresh (ref : Option ReactionsController) :
    List CallRec × PResult :=
  match ref with
  | some c => ([(c.gen, MCall.fetchOp)], c.fetchImpl)
  | none => ([], PResult.resolved)

/-- The postComment wrapper of useComments (lines 358 to 360). -/
def useComments_postComment (ref : Option CommentsController)
    (author content : String) (o : Option CommentOpts) : List CallRec × PResult :=
  match ref with
  | some c => ([(c.gen, MCall.postC author content o)], c.postImpl author content o)
  | none => ([], PResult.resolved)

/-- The refresh wrapper of useComments (lines 362 to 364). -/
def useComments_refresh (ref : Option CommentsController) :
    List CallRec × PResult :=
  match ref with
  | some c => ([(c.gen, MCall.fetchOp)], c.fetchImpl)
  | none => ([], PResult.resolved)

/-- The join wrapper of useWaitlist (lines 415 to 417). -/
def useWaitlist_join (ref : Option WaitlistController) (email : String)
    (o : Option JoinOpts) : List CallRec × PResult :=
  match ref with
  | some c => ([(c.gen, MCall.joinW email o)], c.joinImpl email o)
  | none => ([], PResult.resolved)

/-- The reset wrapper of useWaitlist (lines 419 to 421). -/
def useWaitlist_reset (ref : Option WaitlistController) : List CallRec :=
  match ref with
  | some c => [(c.gen, MCall.resetOp)]
  | none => []

/-- The record wrapper of useViews (lines 484 to 486). -/
def useViews_record (ref : Option ViewCountsController) :
    List CallRec × PResult :=
  match ref with
  | some c => ([(c.gen, MCall.recordV)], c.recordImpl)
  | none => ([], PResult.resolved)

/-- The refresh wrapper of useViews (lines 488 to 490). -/
def useViews_refresh (ref : Option ViewCountsController) :
    List CallRec × PResult :=
  match ref with
  | some c => ([(c.gen, MCall.fetchOp)], c.fetchImpl)
  | none => ([], PResult.resolved)

/-- The submit wrapper of useFeedback (lines 540 to 542). -/
def useFeedback_submit (ref : Option FeedbackController)
    (ty content : String) (o : Option FbOpts) : List CallRec × PResult :=
  match ref with
  | some c => ([(c.gen, MCall.submitFb ty content o)], c.submitImpl ty content o)
  | none => ([], PResult.resolved)

/-- The reset wrapper of useFeedback (lines 544 to 546). -/
def useFeedback_reset (ref : Option FeedbackController) : List CallRec :=
  match ref with
  | some c => [(c.gen, MCall.resetOp)]
  | none => []

/-- The vote wrapper of usePoll (lines 616 to 618). -/
def usePoll_vote (ref : Option PollController) (selectedOptions : List String) :
    List CallRec × PResult :=
  match ref with
  | some c => ([(c.gen, MCall.voteP selectedOptions)], c.voteImpl selectedOptions)
  | none => ([], PResult.resolved)

/-- The refresh wrapper of usePoll (lines 620 to 622). -/
def usePoll_refresh (ref : Option PollController) : List CallRec × PResult :=
  match ref with
  | some c => ([(c.gen, MCall.fetchOp)], c.fetchImpl)
  | none => ([], PResult.resolved)

/-- The dismiss wrapper of useAnnouncements (lines 689 to 691). -/
def useAnnouncements_dismiss (ref : Option AnnouncementsController)
    (announcementId : Nat) : List CallRec × PResult :=
  match ref with
  | some c => ([(c.gen, MCall.dismissA announcementId)], c.dismissImpl announcementId)
  | none => ([], PResult.resolved)

/-- The refresh wrapper of useAnnouncements (lines 693 to 695). -/
def useAnnouncements_refresh (ref : Option AnnouncementsController) :
    List CallRec × PResult :=
  match ref with
  | some c => ([(c.gen, MCall.fetchOp)], c.fetchImpl)
  | none => ([], PResult.resolved)

/-- Log and generation invariant of reachable machine states: generations at
or beyond nextGen have no construction and no automatic read call yet, each
generation is constructed at most once, a constructed generation has the
automatic read call exactly when the auto trigger condition held under the
options of its construction, and the live registration and the ref only hold
generations below nextGen. -/
def Inv {σ Ret : Type} (H : HookDef σ Ret) (b : Bridge σ Ret) : Prop :=
  (∀ g, b.nextGen ≤ g → cCount g b.log = 0 ∧ aCount g b.log = 0) ∧
  (∀ g, cCount g b.log ≤ 1) ∧
  (∀ g o, LogEv.construct g o ∈ b.log →
    aCount g b.log = if H.autoTrigger o then 1 else 0) ∧
  (∀ g, b.activeSub = some g → g < b.nextGen) ∧
  (∀ g, b.controllerRef = some g → g < b.nextGen)

/-- Example options record used by concrete scenarios. -/
def oEx1 : Options :=
  { siteKey := some "k", endpoint := none, featureId := "a", autoFlag := none, extra := 0 }

/-- Example options differing from oEx1 only in the feature identifier. -/
def oEx2 : Options :=
  { siteKey := some "k", endpoint := none, featureId := "b", autoFlag := none, extra := 0 }

/-- Example options differing from oEx1 in the site key and in an unrelated
option. -/
def oEx3 : Options :=
  { siteKey := some "k2", endpoint := none, featureId := "a", autoFlag := none, extra := 1 }

/-- Example subscribe snapshot. -/
def sSubEx : SubscribeState :=
  { status := ControllerStatus.success, message := some "ok", error := none }

/-- Example announcements snapshot whose single announcement is already in
the dismissed set, so the visible subset is empty. -/
def sAnnEx : AnnouncementsState :=
  { announcements := [{ id := 1, content := "hello" }], dismissed := [1],
    status := ControllerStatus.success, error := none }

/-- Example hasVoted behaviour: the controller of generation zero answers
true, later generations answer false. -/
def pqEx : Nat → Bool := fun g => g == 0

/-- Example getVisibleAnnouncements behaviour: every generation answers with
the visible subset of the example snapshot, which is empty. -/
def aqEx : Nat → List Announcement := fun _ => visibleAnnouncements sAnnEx

/-- Example machine state of a useSubscribe instance right after its first
render and effect: controller of generation zero constructed and subscribed
under oEx1. -/
def bEx : Bridge SubscribeState SubscribeState :=
  { controllerRef := some 0
    state := { status := ControllerStatus.idle, message := none, error := none }
    activeSub := some 0
    prevDeps := some (subscribeHook.depsOf oEx1)
    lastOpts := some oEx1
    output := none
    nextGen := 1
    log := [LogEv.construct 0 oEx1, LogEv.subscribeL 0] }

end SeriphReact

namespace SeriphReact

/-!
Helper lemmas: field behaviour of the machine phases, arithmetic of the log
counters, and the reachability invariant.
-/

@[simp] theorem cleanupPhase_controllerRef {σ Ret : Type} (b : Bridge σ Ret) :
    (cleanupPhase b).controllerRef = b.controllerRef := by
  cases h : b.activeSub <;> simp [cleanupPhase, h]

@[simp] theorem cleanupPhase_state {σ Ret : Type} (b : Bridge σ Ret) :
    (cleanupPhase b).state = b.state := by
  cases h : b.activeSub <;> simp [cleanupPhase, h]

@[simp] theorem cleanupPhase_output {σ Ret : Type} (b : Bridge σ Ret) :
    (cleanupPhase b).output = b.output := by
  cases h : b.activeSub <;> simp [cleanupPhase, h]

@[simp] theorem cleanupPhase_nextGen {σ Ret : Type} (b : Bridge σ Ret) :
    (cleanupPhase b).nextGen = b.nextGen := by
  cases h : b.activeSub <;> simp [cleanupPhase, h]

@[simp] theorem cleanupPhase_lastOpts {σ Ret : Type} (b : Bridge σ Ret) :
    (cleanupPhase b).lastOpts = b.lastOpts := by
  cases h : b.activeSub <;> simp [cleanupPhase, h]

@[simp] theorem cleanupPhase_prevDeps {σ Ret : Type} (b : Bridge σ Ret) :
    (cleanupPhase b).prevDeps = b.prevDeps := by
  cases h : b.activeSub <;> simp [cleanupPhase, h]

@[simp] theorem cleanupPhase_activeSub {σ Ret : Type} (b : Bridge σ Ret) :
    (cleanupPhase b).activeSub = none := by
  cases h : b.activeSub <;> simp [cleanupPhase, h]

theorem cleanupPhase_log_of_active {σ Ret : Type} (b : Bridge σ Ret) (g : Nat)
    (h : b.activeSub = some g) : (cleanupPhase b).log = b.log ++ [LogEv.unsubL g] := by
  simp [cleanupPhase, h]

@[simp] theorem constructPhase_controllerRef {σ Ret : Type} (H : HookDef σ Ret)
    (o : Options) (b : Bridge σ Ret) :
    (constructPhase H o b).controllerRef = some b.nextGen := rfl

@[simp] theorem constructPhase_activeSub {σ Ret : Type} (H : HookDef σ Ret)
    (o : Options) (b : Bridge σ Ret) :
    (constructPhase H o b).activeSub = some b.nextGen := rfl

@[simp] theorem constructPhase_nextGen {σ Ret : Type} (H : HookDef σ Ret)
    (o : Options) (b : Bridge σ Ret) :
    (constructPhase H o b).nextGen = b.nextGen + 1 := rfl

@[simp] theorem constructPhase_state {σ Ret : Type} (H : HookDef σ Ret)
    (o : Options) (b : Bridge σ Ret) :
    (constructPhase H o b).state = b.state := rfl

@[simp] theorem constructPhase_output {σ Ret : Type} (H : HookDef σ Ret)
    (o : Options) (b : Bridge σ Ret) :
    (constructPhase H o b).output = b.output := rfl

@[simp] theorem constructPhase_lastOpts {σ Ret : Type} (H : HookDef σ Ret)
    (o : Options) (b : Bridge σ Ret) :
    (constructPhase H o b).lastOpts = b.lastOpts := rfl

@[simp] theorem flushEffect_state {σ Ret : Type} (H : HookDef σ Ret)
    (o : Options) (b : Bridge σ Ret) :
    (flushEffect H o b).state = b.state := by
  unfold flushEffect; split <;> simp

@[simp] theorem flushEffect_output {σ Ret : Type} (H : HookDef σ Ret)
    (o : Options) (b : Bridge σ Ret) :
    (flushEffect H o b).output = b.output := by
  unfold flushEffect; split <;> simp

@[simp] theorem flushEffect_lastOpts {σ Ret : Type} (H : HookDef σ Ret)
    (o : Options) (b : Bridge σ Ret) :
    (flushEffect H o b).lastOpts = b.lastOpts := by
  unfold flushEffect; split <;> simp

@[simp] theorem renderStep_state {σ Ret : Type} (H : HookDef σ Ret)
    (o : Options) (b : Bridge σ Ret) :
    (renderStep H o b).state = b.state := by
  simp [renderStep]

@[simp] theorem renderStep_output {σ Ret : Type} (H : HookDef σ Ret)
    (o : Options) (b : Bridge σ Ret) :
    (renderStep H o b).output = some (H.renderOut b.controllerRef b.state) := by
  simp [renderStep]

@[simp] theorem renderStep_lastOpts {σ Ret : Type} (H : HookDef σ Ret)
    (o : Options) (b : Bridge σ Ret) :
    (renderStep H o b).lastOpts = some o := by
  simp [renderStep]

theorem step_notify_live {σ Ret : Type} (H : HookDef σ Ret) (b : Bridge σ Ret)
    (g : Nat) (s : σ) (o : Options) (hsub : b.activeSub = some g)
    (hl : b.lastOpts = some o) :
    step H b (Ev.notify g s) = renderStep H o { b with state := s } := by
  simp [step, hsub, hl]

theorem cCount_pos_of_mem {g : Nat} {o : Options} {l : List LogEv}
    (h : LogEv.construct g o ∈ l) : 0 < cCount g l := by
  refine List.countP_pos_iff.mpr ⟨LogEv.construct g o, h, ?_⟩
  simp [isConstruct]

theorem cCount_cleanupPhase {σ Ret : Type} (b : Bridge σ Ret) (g : Nat) :
    cCount g (cleanupPhase b).log = cCount g b.log := by
  cases h : b.activeSub <;>
    simp [cleanupPhase, h, cCount, List.countP_append, isConstruct]

theorem aCount_cleanupPhase {σ Ret : Type} (b : Bridge σ Ret) (g : Nat) :
    aCount g (cleanupPhase b).log = aCount g b.log := by
  cases h : b.activeSub <;>
    simp [cleanupPhase, h, aCount, List.countP_append, isAutoCall]

theorem mem_log_cleanupPhase {σ Ret : Type} (b : Bridge σ Ret) (g : Nat)
    (o : Options) :
    LogEv.construct g o ∈ (cleanupPhase b).log ↔ LogEv.construct g o ∈ b.log := by
  cases h : b.activeSub <;> simp [cleanupPhase, h]

theorem cCount_constructPhase {σ Ret : Type} (H : HookDef σ Ret) (o : Options)
    (b : Bridge σ Ret) (g : Nat) :
    cCount g (constructPhase H o b).log =
      cCount g b.log + (if g = b.nextGen then 1 else 0) := by
  by_cases hg : g = b.nextGen
  · subst hg
    cases hA : H.autoTrigger o <;>
      simp [constructPhase, cCount, List.countP_append, List.countP_cons,
        isConstruct, isAutoCall, hA]
  · have hg' : b.nextGen ≠ g := fun he => hg he.symm
    cases hA : H.autoTrigger o <;>
      simp [constructPhase, cCount, List.countP_append, List.countP_cons,
        isConstruct, isAutoCall, hA, hg, hg']

theorem aCount_constructPhase {σ Ret : Type} (H : HookDef σ Ret) (o : Options)
    (b : Bridge σ Ret) (g : Nat) :
    aCount g (constructPhase H o b).log =
      aCount g b.log + (if g = b.nextGen ∧ H.autoTrigger o = true then 1 else 0) := by
  by_cases hg : g = b.nextGen
  · subst hg
    cases hA : H.autoTrigger o <;>
      simp [constructPhase, aCount, List.countP_append, List.countP_cons,
        isConstruct, isAutoCall, hA]
  · have hg' : b.nextGen ≠ g := fun he => hg he.symm
    cases hA : H.autoTrigger o <;>
      simp [constructPhase, aCount, List.countP_append, List.countP_cons,
        isConstruct, isAutoCall, hA, hg, hg']

theorem mem_log_constructPhase {σ Ret : Type} (H : HookDef σ Ret) (o : Options)
    (b : Bridge σ Ret) (g : Nat) (o' : Options) :
    LogEv.construct g o' ∈ (constructPhase H o b).log ↔
      LogEv.construct g o' ∈ b.log ∨ (g = b.nextGen ∧ o' = o) := by
  cases hA : H.autoTrigger o <;> simp [constructPhase, hA]

theorem inv_cleanupPhase {σ Ret : Type} (H : HookDef σ Ret) (b : Bridge σ Ret)
    (h : Inv H b) : Inv H (cleanupPhase b) := by
  obtain ⟨h1, h2, h3, h4, h5⟩ := h
  refine ⟨?_, ?_, ?_, ?_, ?_⟩
  · intro g hg
    rw [cleanupPhase_nextGen] at hg
    rw [cCount_cleanupPhase, aCount_cleanupPhase]
    exact h1 g hg
  · intro g
    rw [cCount_cleanupPhase]
    exact h2 g
  · intro g o hmem
    rw [aCount_cleanupPhase]
    exact h3 g o ((mem_log_cleanupPhase b g o).mp hmem)
  · intro g hg
    rw [cleanupPhase_activeSub] at hg
    exact absurd hg (by simp)
  · intro g hg
    rw [cleanupPhase_controllerRef] at hg
    rw [cleanupPhase_nextGen]
    exact h5 g hg

theorem inv_constructPhase {σ Ret : Type} (H : HookDef σ Ret) (o : Options)
    (b : Bridge σ Ret) (h : Inv H b) : Inv H (constructPhase H o b) := by
  obtain ⟨h1, h2, h3, h4, h5⟩ := h
  have hc0 : cCount b.nextGen b.log = 0 := (h1 _ le_rfl).1
  have ha0 : aCount b.nextGen b.log = 0 := (h1 _ le_rfl).2
  refine ⟨?_, ?_, ?_, ?_, ?_⟩
  · intro g hg
    rw [constructPhase_nextGen] at hg
    have hne : ¬ g = b.nextGen := by omega
    have hle : b.nextGen ≤ g := by omega
    rw [cCount_constructPhase, aCount_constructPhase]
    simp [hne, (h1 g hle).1, (h1 g hle).2]
  · intro g
    rw [cCount_constructPhase]
    by_cases hg : g = b.nextGen
    · subst hg; simp [hc0]
    · simp [hg]; exact h2 g
  · intro g o' hmem
    rw [aCount_constructPhase]
    rcases (mem_log_constructPhase H o b g o').mp hmem with hold | ⟨hg, ho⟩
    · have hgne : ¬ g = b.nextGen := by
        intro he
        subst he
        have := cCount_pos_of_mem hold
        omega
      simp [hgne, h3 g o' hold]
    · subst hg; subst ho
      simp [ha0]
  · intro g hg
    rw [constructPhase_activeSub] at hg
    have := Option.some.inj hg
    rw [constructPhase_nextGen]
    omega
  · intro g hg
    rw [constructPhase_controllerRef] at hg
    have := Option.some.inj hg
    rw [constructPhase_nextGen]
    omega

theorem inv_flushEffect {σ Ret : Type} (H : HookDef σ Ret) (o : Options)
    (b : Bridge σ Ret) (h : Inv H b) : Inv H (flushEffect H o b) := by
  unfold flushEffect
  split
  · exact h
  · exact inv_constructPhase H o _ (inv_cleanupPhase H b h)

theorem inv_renderStep {σ Ret : Type} (H : HookDef σ Ret) (o : Options)
    (b : Bridge σ Ret) (h : Inv H b) : Inv H (renderStep H o b) := by
  unfold renderStep
  exact inv_flushEffect H o _ h

theorem inv_step {σ Ret : Type} (H : HookDef σ Ret) (b : Bridge σ Ret)
    (ev : Ev σ) (h : Inv H b) : Inv H (step H b ev) := by
  cases ev with
  | render o => exact inv_renderStep H o b h
  | notify g s =>
      simp only [step]
      split
      · cases hl : b.lastOpts with
        | some o => exact inv_renderStep H o _ h
        | none => exact h
      · exact h
  | unmount => exact inv_cleanupPhase H b h

theorem inv_foldl {σ Ret : Type} (H : HookDef σ Ret) (evs : List (Ev σ))
    (b : Bridge σ Ret) (h : Inv H b) : Inv H (evs.foldl (step H) b) := by
  induction evs generalizing b with
  | nil => exact h
  | cons ev evs ih => exact ih (step H b ev) (inv_step H b ev h)

theorem inv_fresh {σ Ret : Type} (H : HookDef σ Ret) (o : Options) :
    Inv H (fresh H o) := by
  refine ⟨?_, ?_, ?_, ?_, ?_⟩ <;> intro g <;> simp [fresh, cCount, aCount]

theorem inv_run {σ Ret : Type} (H : HookDef σ Ret) (o : Options)
    (evs : List (Ev σ)) : Inv H (run H o evs) :=
  inv_foldl H evs _ (inv_renderStep H o _ (inv_fresh H o))

theorem stale_flushEffect {σ Ret : Type} (H : HookDef σ Ret) (o : Options)
    (b : Bridge σ Ret) (g : Nat) (h1 : b.activeSub ≠ some g)
    (h2 : g < b.nextGen) :
    (flushEffect H o b).activeSub ≠ some g ∧ g < (flushEffect H o b).nextGen := by
  unfold flushEffect
  split
  · exact ⟨h1, h2⟩
  · refine ⟨?_, ?_⟩
    · rw [constructPhase_activeSub, cleanupPhase_nextGen]
      intro he
      have := Option.some.inj he
      omega
    · rw [constructPhase_nextGen, cleanupPhase_nextGen]
      omega

theorem autoOn_ite (o : Options) :
    (if autoOn o then (1 : Nat) else 0) =
      if o.autoFlag ≠ some false then 1 else 0 := by
  rcases ho : o.autoFlag with _ | b
  · simp [autoOn, ho]
  · cases b <;> simp [autoOn, ho]

end SeriphReact

namespace SeriphReact

theorem renderStep_eq_of_ne {σ Ret : Type} (H : HookDef σ Ret) (o : Options)
    (b : Bridge σ Ret) (h : ¬ b.prevDeps = some (H.depsOf o)) :
    renderStep H o b = constructPhase H o (cleanupPhase
      { b with lastOpts := some o,
               output := some (H.renderOut b.controllerRef b.state) }) := by
  have h' :
      ¬ ({ b with lastOpts := some o, output := some (H.renderOut b.controllerRef b.state) } : Bridge σ Ret).prevDeps = some (H.depsOf o) :=
    h
  unfold renderStep flushEffect
  rw [if_neg h']

theorem renderStep_eq_of_eq {σ Ret : Type} (H : HookDef σ Ret) (o : Options)
    (b : Bridge σ Ret) (h : b.prevDeps = some (H.depsOf o)) :
    renderStep H o b =
      { b with lastOpts := some o,
               output := some (H.renderOut b.controllerRef b.state) } := by
  have h' :
      ({ b with lastOpts := some o, output := some (H.renderOut b.controllerRef b.state) } : Bridge σ Ret).prevDeps = some (H.depsOf o) :=
    h
  unfold renderStep flushEffect
  rw [if_pos h']

/-- Claim C1 (amended).  For every hook, while the listener registration of
generation g is live and a render has happened, a snapshot s emitted by
controller g becomes the mirrored state verbatim and the recomputed return
value carries the snapshot fields: for useSubscribe, useForm, useReactions,
useComments, useWaitlist, useFeedback and usePoll the snapshot is spread
directly, and for useViews every returned state field equals the
corresponding snapshot field.  For useAnnouncements the returned status and
error equal the snapshot fields, but the announcements field is the result
of the getVisibleAnnouncements query of the currently referenced controller,
not the snapshot announcements list (source line 698). -/
theorem spec_c1 :
    (∀ (b : Bridge SubscribeState SubscribeState) (g : Nat) (s : SubscribeState)
        (o : Options), b.activeSub = some g → b.lastOpts = some o →
        (step subscribeHook b (Ev.notify g s)).state = s ∧
        (step subscribeHook b (Ev.notify g s)).output = some s) ∧
    (∀ (b : Bridge FormState FormState) (g : Nat) (s : FormState)
        (o : Options), b.activeSub = some g → b.lastOpts = some o →
        (step formHook b (Ev.notify g s)).state = s ∧
        (step formHook b (Ev.notify g s)).output = some s) ∧
    (∀ (b : Bridge ReactionsState ReactionsState) (g : Nat) (s : ReactionsState)
        (o : Options), b.activeSub = some g → b.lastOpts = some o →
        (step reactionsHook b (Ev.notify g s)).state = s ∧
        (step reactionsHook b (Ev.notify g s)).output = some s) ∧
    (∀ (b : Bridge CommentsState CommentsState) (g : Nat) (s : CommentsState)
        (o : Options), b.activeSub = some g → b.lastOpts = some o →
        (step commentsHook b (Ev.notify g s)).state = s ∧
        (step commentsHook b (Ev.notify g s)).output = some s) ∧
    (∀ (b : Bridge WaitlistState WaitlistState) (g : Nat) (s : WaitlistState)
        (o : Options), b.activeSub = some g → b.lastOpts = some o →
        (step waitlistHook b (Ev.notify g s)).state = s ∧
        (step waitlistHook b (Ev.notify g s)).output = some s) ∧
    (∀ (b : Bridge ViewCountsState ViewsReturn) (g : Nat) (s : ViewCountsState)
        (o : Options), b.activeSub = some g → b.lastOpts = some o →
        (step viewsHook b (Ev.notify g s)).state = s ∧
        (step viewsHook b (Ev.notify g s)).output =
          some { views := s.views, uniqueVisitors := s.uniqueVisitors,
                 status := s.status, error := s.error }) ∧
    (∀ (b : Bridge FeedbackState FeedbackState) (g : Nat) (s : FeedbackState)
        (o : Options), b.activeSub = some g → b.lastOpts = some o →
        (step feedbackHook b (Ev.notify g s)).state = s ∧
        (step feedbackHook b (Ev.notify g s)).output = some s) ∧
    (∀ (pq : Nat → Bool) (b : Bridge PollState PollReturn) (g : Nat)
        (s : PollState) (o : Options), b.activeSub = some g → b.lastOpts = some o →
        (step (pollHook pq) b (Ev.notify g s)).state = s ∧
        (step (pollHook pq) b (Ev.notify g s)).output =
          some { poll := s.poll, status := s.status, error := s.error,
                 hasVoted := match b.controllerRef with
                   | some g2 => pq g2
                   | none => false }) ∧
    (∀ (aq : Nat → List Announcement) (b : Bridge AnnouncementsState AnnReturn)
        (g : Nat) (s : AnnouncementsState) (o : Options),
        b.activeSub = some g → b.lastOpts = some o →
        (step (annHook aq) b (Ev.notify g s)).state = s ∧
        (step (annHook aq) b (Ev.notify g s)).output =
          some { announcements := match b.controllerRef with
                   | some g2 => aq g2
                   | none => [],
                 status := s.status, error := s.error }) := by
  refine ⟨?_, ?_, ?_, ?_, ?_, ?_, ?_, ?_, ?_⟩
  · intro b g s o hs hl
    rw [step_notify_live _ _ _ _ _ hs hl]
    exact ⟨by simp, by rw [renderStep_output]; rfl⟩
  · intro b g s o hs hl
    rw [step_notify_live _ _ _ _ _ hs hl]
    exact ⟨by simp, by rw [renderStep_output]; rfl⟩
  · intro b g s o hs hl
    rw [step_notify_live _ _ _ _ _ hs hl]
    exact ⟨by simp, by rw [renderStep_output]; rfl⟩
  · intro b g s o hs hl
    rw [step_notify_live _ _ _ _ _ hs hl]
    exact ⟨by simp, by rw [renderStep_output]; rfl⟩
  · intro b g s o hs hl
    rw [step_notify_live _ _ _ _ _ hs hl]
    exact ⟨by simp, by rw [renderStep_output]; rfl⟩
  · intro b g s o hs hl
    rw [step_notify_live _ _ _ _ _ hs hl]
    exact ⟨by simp, by rw [renderStep_output]; rfl⟩
  · intro b g s o hs hl
    rw [step_notify_live _ _ _ _ _ hs hl]
    exact ⟨by simp, by rw [renderStep_output]; rfl⟩
  · intro pq b g s o hs hl
    rw [step_notify_live _ _ _ _ _ hs hl]
    exact ⟨by simp, by rw [renderStep_output]; rfl⟩
  · intro aq b g s o hs hl
    rw [step_notify_live _ _ _ _ _ hs hl]
    exact ⟨by simp, by rw [renderStep_output]; rfl⟩

/-- Witness for claim C1 at a concrete machine state. -/
theorem spec_c1_witness :
    (step subscribeHook bEx (Ev.notify 0 sSubEx)).state = sSubEx ∧
    (step subscribeHook bEx (Ev.notify 0 sSubEx)).output = some sSubEx :=
  spec_c1.1 bEx 0 sSubEx oEx1 rfl rfl

/-- Counterexample to claim C1 as stated: in a concrete useAnnouncements
run, a snapshot whose single announcement is already dismissed is emitted
while the subscription is live; the mirrored state holds the snapshot, yet
the returned announcements field is the visible subset (empty), not the
snapshot announcements field. -/
theorem spec_c1_cex :
    (run (annHook aqEx) oEx1 [Ev.notify 0 sAnnEx]).activeSub = some 0 ∧
    (run (annHook aqEx) oEx1 [Ev.notify 0 sAnnEx]).state = sAnnEx ∧
    ((run (annHook aqEx) oEx1 [Ev.notify 0 sAnnEx]).output.map
        AnnReturn.announcements) ≠ some sAnnEx.announcements := by
  decide

/-- Claim C2.  A notification from a controller whose listener registration
is not live leaves the machine entirely unchanged; once a generation is
below the fresh-generation counter and not subscribed, every further event
preserves that, so a discarded controller can never update state again; and
every reachable live subscription is to a generation below the counter. -/
theorem spec_c2 :
    (∀ (σ Ret : Type) (H : HookDef σ Ret) (b : Bridge σ Ret) (g : Nat) (s : σ),
        b.activeSub ≠ some g → step H b (Ev.notify g s) = b) ∧
    (∀ (σ Ret : Type) (H : HookDef σ Ret) (b : Bridge σ Ret) (g : Nat) (ev : Ev σ),
        b.activeSub ≠ some g → g < b.nextGen →
        (step H b ev).activeSub ≠ some g ∧ g < (step H b ev).nextGen) ∧
    (∀ (σ Ret : Type) (H : HookDef σ Ret) (o : Options) (evs : List (Ev σ)) (g : Nat),
        (run H o evs).activeSub = some g → g < (run H o evs).nextGen) := by
  refine ⟨?_, ?_, ?_⟩
  · intro σ Ret H b g s h
    simp [step, h]
  · intro σ Ret H b g ev h1 h2
    cases ev with
    | render o =>
        simp only [step, renderStep]
        exact stale_flushEffect H o _ g h1 h2
    | notify g2 s =>
        simp only [step]
        split
        · cases hl : b.lastOpts with
          | some o =>
              simp only [renderStep]
              exact stale_flushEffect H o _ g h1 h2
          | none => exact ⟨h1, h2⟩
        · exact ⟨h1, h2⟩
    | unmount =>
        simp only [step]
        refine ⟨?_, ?_⟩
        · rw [cleanupPhase_activeSub]
          simp
        · rw [cleanupPhase_nextGen]
          exact h2
  · intro σ Ret H o evs g h
    exact (inv_run H o evs).2.2.2.1 g h

/-- Witness for claim C2: a notification from a stale generation leaves a
concrete machine state untouched. -/
theorem spec_c2_witness :
    step subscribeHook bEx (Ev.notify 5 sSubEx) = bEx :=
  spec_c2.1 SubscribeState SubscribeState subscribeHook bEx 5 sSubEx (by decide)

/-- Claim C3.  For the five read oriented hooks, every constructed
controller generation has the automatic initial read call exactly once in
any run when the auto option was absent or true at its construction, and
never when it was false. -/
theorem spec_c3 :
    (∀ (o : Options) (evs : List (Ev ReactionsState)) (g : Nat) (o' : Options),
        LogEv.construct g o' ∈ (run reactionsHook o evs).log →
        aCount g (run reactionsHook o evs).log =
          if o'.autoFlag ≠ some false then 1 else 0) ∧
    (∀ (o : Options) (evs : List (Ev CommentsState)) (g : Nat) (o' : Options),
        LogEv.construct g o' ∈ (run commentsHook o evs).log →
        aCount g (run commentsHook o evs).log =
          if o'.autoFlag ≠ some false then 1 else 0) ∧
    (∀ (o : Options) (evs : List (Ev ViewCountsState)) (g : Nat) (o' : Options),
        LogEv.construct g o' ∈ (run viewsHook o evs).log →
        aCount g (run viewsHook o evs).log =
          if o'.autoFlag ≠ some false then 1 else 0) ∧
    (∀ (pq : Nat → Bool) (o : Options) (evs : List (Ev PollState)) (g : Nat)
        (o' : Options),
        LogEv.construct g o' ∈ (run (pollHook pq) o evs).log →
        aCount g (run (pollHook pq) o evs).log =
          if o'.autoFlag ≠ some false then 1 else 0) ∧
    (∀ (aq : Nat → List Announcement) (o : Options)
        (evs : List (Ev AnnouncementsState)) (g : Nat) (o' : Options),
        LogEv.construct g o' ∈ (run (annHook aq) o evs).log →
        aCount g (run (annHook aq) o evs).log =
          if o'.autoFlag ≠ some false then 1 else 0) := by
  refine ⟨?_, ?_, ?_, ?_, ?_⟩
  · intro o evs g o' hmem
    rw [(inv_run reactionsHook o evs).2.2.1 g o' hmem]
    exact autoOn_ite o'
  · intro o evs g o' hmem
    rw [(inv_run commentsHook o evs).2.2.1 g o' hmem]
    exact autoOn_ite o'
  · intro o evs g o' hmem
    rw [(inv_run viewsHook o evs).2.2.1 g o' hmem]
    exact autoOn_ite o'
  · intro pq o evs g o' hmem
    rw [(inv_run (pollHook pq) o evs).2.2.1 g o' hmem]
    exact autoOn_ite o'
  · intro aq o evs g o' hmem
    rw [(inv_run (annHook aq) o evs).2.2.1 g o' hmem]
    exact autoOn_ite o'

/-- Witness for claim C3 on a concrete run of useReactions. -/
theorem spec_c3_witness :
    aCount 0 (run reactionsHook oEx1 []).log =
      if oEx1.autoFlag ≠ some false then 1 else 0 :=
  spec_c3.1 oEx1 [] 0 oEx1 (by decide)

/-- Claim C5.  From a machine state whose previous render used options op
(with the stored dependency array of op) and whose controller g is
subscribed, a re-render with options o whose dependency tuple differs tears
the old controller down exactly once and constructs exactly one new
controller (in that order, as the log shows); a re-render whose dependency
tuple is unchanged performs no teardown and no construction, whatever else
in o changed. -/
theorem spec_c5 (σ Ret : Type) (H : HookDef σ Ret) (b : Bridge σ Ret)
    (op o : Options) (g : Nat) (_hop : b.lastOpts = some op)
    (hprev : b.prevDeps = some (H.depsOf op)) (hsub : b.activeSub = some g) :
    (H.depsOf o ≠ H.depsOf op →
      (renderStep H o b).log =
        b.log ++ [LogEv.unsubL g, LogEv.construct b.nextGen o,
          LogEv.subscribeL b.nextGen] ++
          (if H.autoTrigger o then [LogEv.autoCall b.nextGen] else []) ∧
      (renderStep H o b).controllerRef = some b.nextGen ∧
      (renderStep H o b).activeSub = some b.nextGen ∧
      uCountAll (renderStep H o b).log = uCountAll b.log + 1 ∧
      cCountAll (renderStep H o b).log = cCountAll b.log + 1) ∧
    (H.depsOf o = H.depsOf op →
      (renderStep H o b).log = b.log ∧
      (renderStep H o b).controllerRef = b.controllerRef ∧
      (renderStep H o b).activeSub = b.activeSub ∧
      (renderStep H o b).nextGen = b.nextGen) := by
  constructor
  · intro hne
    have hcond : ¬ b.prevDeps = some (H.depsOf o) := by
      rw [hprev]
      simp only [Option.some.injEq]
      exact fun he => hne he.symm
    rw [renderStep_eq_of_ne H o b hcond]
    set b1 : Bridge σ Ret :=
      { b with lastOpts := some o,
               output := some (H.renderOut b.controllerRef b.state) } with hb1
    have hsub1 : b1.activeSub = some g := hsub
    have hlog1 : (cleanupPhase b1).log = b.log ++ [LogEv.unsubL g] :=
      cleanupPhase_log_of_active b1 g hsub1
    have hng1 : (cleanupPhase b1).nextGen = b.nextGen := by
      rw [cleanupPhase_nextGen]
    have hlogF : (constructPhase H o (cleanupPhase b1)).log =
        (b.log ++ [LogEv.unsubL g]) ++
          [LogEv.construct b.nextGen o, LogEv.subscribeL b.nextGen] ++
          (if H.autoTrigger o then [LogEv.autoCall b.nextGen] else []) := by
      simp only [constructPhase]
      rw [hlog1, hng1]
    refine ⟨?_, ?_, ?_, ?_, ?_⟩
    · rw [hlogF]
      simp [List.append_assoc]
    · rw [constructPhase_controllerRef, hng1]
    · rw [constructPhase_activeSub, hng1]
    · rw [hlogF]
      cases hA : H.autoTrigger o <;>
        simp [uCountAll, List.countP_append, List.countP_cons, isUnsubAny, hA]
    · rw [hlogF]
      cases hA : H.autoTrigger o <;>
        simp [cCountAll, List.countP_append, List.countP_cons, isConstructAny, hA]
  · intro heq
    have hcond : b.prevDeps = some (H.depsOf o) := by rw [hprev, heq]
    rw [renderStep_eq_of_eq H o b hcond]
    exact ⟨rfl, rfl, rfl, rfl⟩

/-- Witness for claim C5: a concrete configuration change (new site key,
plus an unrelated option change) on a live useSubscribe machine state. -/
theorem spec_c5_witness :
    (renderStep subscribeHook oEx3 bEx).log =
      bEx.log ++ [LogEv.unsubL 0, LogEv.construct 1 oEx3, LogEv.subscribeL 1] ++
        (if subscribeHook.autoTrigger oEx3 then [LogEv.autoCall 1] else []) ∧
    (renderStep subscribeHook oEx3 bEx).controllerRef = some 1 := by
  have h := (spec_c5 SubscribeState SubscribeState subscribeHook bEx oEx1 oEx3 0
    rfl rfl rfl).1 (by decide)
  exact ⟨h.1, h.2.1⟩

end SeriphReact

namespace SeriphReact

/-- Claim C4.  Every action forwarding wrapper, given a constructed
controller, invokes exactly the corresponding controller method with its
arguments unchanged, and the settled result it returns is exactly the
settled result of that controller operation (the await makes the wrapper
resolve only once the controller operation has). -/
theorem spec_c4 :
    (∀ (c : SubscribeController) (email : String),
        useSubscribe_subscribe (some c) email =
          ([(c.gen, MCall.submitEmail email)], c.submitImpl email)) ∧
    (∀ (c : FormController) (data : List (String × String)),
        useForm_submit (some c) data =
          ([(c.gen, MCall.submitForm data)], c.submitImpl data)) ∧
    (∀ (c : ReactionsController) (ty : String),
        useReactions_addReaction (some c) ty =
          ([(c.gen, MCall.addR ty)], c.addImpl ty)) ∧
    (∀ (c : ReactionsController) (ty : String),
        useReactions_removeReaction (some c) ty =
          ([(c.gen, MCall.removeR ty)], c.removeImpl ty)) ∧
    (∀ (c : ReactionsController),
        useReactions_refresh (some c) = ([(c.gen, MCall.fetchOp)], c.fetchImpl)) ∧
    (∀ (c : CommentsController) (author content : String) (o : Option CommentOpts),
        useComments_postComment (some c) author content o =
          ([(c.gen, MCall.postC author content o)], c.postImpl author content o)) ∧
    (∀ (c : CommentsController),
        useComments_refresh (some c) = ([(c.gen, MCall.fetchOp)], c.fetchImpl)) ∧
    (∀ (c : WaitlistController) (email : String) (o : Option JoinOpts),
        useWaitlist_join (some c) email o =
          ([(c.gen, MCall.joinW email o)], c.joinImpl email o)) ∧
    (∀ (c : ViewCountsController),
        useViews_record (some c) = ([(c.gen, MCall.recordV)], c.recordImpl)) ∧
    (∀ (c : ViewCountsController),
        useViews_refresh (some c) = ([(c.gen, MCall.fetchOp)], c.fetchImpl)) ∧
    (∀ (c : FeedbackController) (ty content : String) (o : Option FbOpts),
        useFeedback_submit (some c) ty content o =
          ([(c.gen, MCall.submitFb ty content o)], c.submitImpl ty content o)) ∧
    (∀ (c : PollController) (sel : List String),
        usePoll_vote (some c) sel = ([(c.gen, MCall.voteP sel)], c.voteImpl sel)) ∧
    (∀ (c : PollController),
        usePoll_refresh (some c) = ([(c.gen, MCall.fetchOp)], c.fetchImpl)) ∧
    (∀ (c : AnnouncementsController) (annId : Nat),
        useAnnouncements_dismiss (some c) annId =
          ([(c.gen, MCall.dismissA annId)], c.dismissImpl annId)) ∧
    (∀ (c : AnnouncementsController),
        useAnnouncements_refresh (some c) = ([(c.gen, MCall.fetchOp)], c.fetchImpl)) :=
  ⟨fun _ _ => rfl, fun _ _ => rfl, fun _ _ => rfl, fun _ _ => rfl, fun _ => rfl,
   fun _ _ _ _ => rfl, fun _ => rfl, fun _ _ _ => rfl, fun _ => rfl, fun _ => rfl,
   fun _ _ _ _ => rfl, fun _ _ => rfl, fun _ => rfl, fun _ _ => rfl, fun _ => rfl⟩

/-- Claim C6 (amended).  The derived read only values of usePoll and
useAnnouncements are computed during each render from the controller
referenced at that moment (hasVoted false and announcements empty when no
controller is referenced yet), and they are not recomputed outside renders:
an unmount leaves the last rendered value in place.  They therefore reflect
the controller query as of the most recent render, not necessarily the
currently alive controller at the instant the consumer reads them. -/
theorem spec_c6 :
    (∀ (pq : Nat → Bool) (b : Bridge PollState PollReturn) (o : Options),
        (step (pollHook pq) b (Ev.render o)).output =
          some { poll := b.state.poll, status := b.state.status,
                 error := b.state.error,
                 hasVoted := match b.controllerRef with
                   | some g => pq g
                   | none => false }) ∧
    (∀ (aq : Nat → List Announcement) (b : Bridge AnnouncementsState AnnReturn)
        (o : Options),
        (step (annHook aq) b (Ev.render o)).output =
          some { announcements := match b.controllerRef with
                   | some g => aq g
                   | none => [],
                 status := b.state.status, error := b.state.error }) ∧
    (∀ (pq : Nat → Bool) (b : Bridge PollState PollReturn),
        (step (pollHook pq) b Ev.unmount).output = b.output) ∧
    (∀ (aq : Nat → List Announcement) (b : Bridge AnnouncementsState AnnReturn),
        (step (annHook aq) b Ev.unmount).output = b.output) := by
  refine ⟨?_, ?_, ?_, ?_⟩
  · intro pq b o
    show (renderStep (pollHook pq) o b).output = _
    rw [renderStep_output]
    rfl
  · intro aq b o
    show (renderStep (annHook aq) o b).output = _
    rw [renderStep_output]
    rfl
  · intro pq b
    show (cleanupPhase b).output = b.output
    rw [cleanupPhase_output]
  · intro aq b
    show (cleanupPhase b).output = b.output
    rw [cleanupPhase_output]

/-- Counterexample to claim C6 as stated: in a concrete usePoll run, the
controller of generation zero reports hasVoted true; a configuration change
render recomputes the observable hasVoted from that old controller and then
replaces it by the freshly constructed generation one, whose query answers
false.  The consumer therefore observes hasVoted true while the currently
alive controller answers false. -/
theorem spec_c6_cex :
    (run (pollHook pqEx) oEx1 [Ev.render oEx2]).controllerRef = some 1 ∧
    ((run (pollHook pqEx) oEx1 [Ev.render oEx2]).output.map PollReturn.hasVoted) =
      some true ∧
    pqEx 1 = false := by
  decide

/-- Claim C7.  The deregistration step of a teardown runs while the bridge
still holds the reference to the controller being torn down: the cleanup
only clears the live registration (logging the deregistration) and leaves
controllerRef untouched; on a dependency change the effect is exactly the
cleanup followed by the construction phase, and only the construction phase
replaces the reference; an unmount never replaces it at all. -/
theorem spec_c7 :
    (∀ (σ Ret : Type) (b : Bridge σ Ret),
        (cleanupPhase b).controllerRef = b.controllerRef) ∧
    (∀ (σ Ret : Type) (b : Bridge σ Ret) (g : Nat), b.activeSub = some g →
        (cleanupPhase b).log = b.log ++ [LogEv.unsubL g] ∧
        (cleanupPhase b).activeSub = none) ∧
    (∀ (σ Ret : Type) (H : HookDef σ Ret) (o : Options) (b : Bridge σ Ret),
        ¬ b.prevDeps = some (H.depsOf o) →
        flushEffect H o b = constructPhase H o (cleanupPhase b) ∧
        (constructPhase H o (cleanupPhase b)).controllerRef = some b.nextGen) ∧
    (∀ (σ Ret : Type) (H : HookDef σ Ret) (b : Bridge σ Ret),
        (step H b Ev.unmount).controllerRef = b.controllerRef) := by
  refine ⟨?_, ?_, ?_, ?_⟩
  · intro σ Ret b
    rw [cleanupPhase_controllerRef]
  · intro σ Ret b g h
    exact ⟨cleanupPhase_log_of_active b g h, cleanupPhase_activeSub b⟩
  · intro σ Ret H o b h
    refine ⟨?_, ?_⟩
    · unfold flushEffect
      rw [if_neg h]
    · rw [constructPhase_controllerRef, cleanupPhase_nextGen]
  · intro σ Ret H b
    show (cleanupPhase b).controllerRef = b.controllerRef
    rw [cleanupPhase_controllerRef]

/-- Witness for claim C7 at a concrete machine state. -/
theorem spec_c7_witness :
    (cleanupPhase bEx).log = bEx.log ++ [LogEv.unsubL 0] ∧
    (cleanupPhase bEx).activeSub = none :=
  spec_c7.2.1 SubscribeState SubscribeState bEx 0 rfl

/-- Claim C8.  The bridge never catches or reinterprets controller errors:
every action forwarding wrapper returns the settled result of the
controller operation verbatim, rejections included; and the mirrored state
changes only through a notification of the live listener registration,
which installs the emitted snapshot as a whole, so an error value or status
can reach the observable state only inside such a snapshot. -/
theorem spec_c8 :
    (∀ (c : SubscribeController) (email : String),
        (useSubscribe_subscribe (some c) email).2 = c.submitImpl email) ∧
    (∀ (c : FormController) (data : List (String × String)),
        (useForm_submit (some c) data).2 = c.submitImpl data) ∧
    (∀ (c : ReactionsController) (ty : String),
        (useReactions_addReaction (some c) ty).2 = c.addImpl ty) ∧
    (∀ (c : ReactionsController) (ty : String),
        (useReactions_removeReaction (some c) ty).2 = c.removeImpl ty) ∧
    (∀ (c : ReactionsController),
        (useReactions_refresh (some c)).2 = c.fetchImpl) ∧
    (∀ (c : CommentsController) (author content : String) (o : Option CommentOpts),
        (useComments_postComment (some c) author content o).2 =
          c.postImpl author content o) ∧
    (∀ (c : CommentsController),
        (useComments_refresh (some c)).2 = c.fetchImpl) ∧
    (∀ (c : WaitlistController) (email : String) (o : Option JoinOpts),
        (useWaitlist_join (some c) email o).2 = c.joinImpl email o) ∧
    (∀ (c : ViewCountsController), (useViews_record (some c)).2 = c.recordImpl) ∧
    (∀ (c : ViewCountsController), (useViews_refresh (some c)).2 = c.fetchImpl) ∧
    (∀ (c : FeedbackController) (ty content : String) (o : Option FbOpts),
        (useFeedback_submit (some c) ty content o).2 = c.submitImpl ty content o) ∧
    (∀ (c : PollController) (sel : List String),
        (usePoll_vote (some c) sel).2 = c.voteImpl sel) ∧
    (∀ (c : PollController), (usePoll_refresh (some c)).2 = c.fetchImpl) ∧
    (∀ (c : AnnouncementsController) (annId : Nat),
        (useAnnouncements_dismiss (some c) annId).2 = c.dismissImpl annId) ∧
    (∀ (c : AnnouncementsController),
        (useAnnouncements_refresh (some c)).2 = c.fetchImpl) ∧
    (∀ (σ Ret : Type) (H : HookDef σ Ret) (b : Bridge σ Ret) (o : Options),
        (step H b (Ev.render o)).state = b.state) ∧
    (∀ (σ Ret : Type) (H : HookDef σ Ret) (b : Bridge σ Ret),
        (step H b Ev.unmount).state = b.state) ∧
    (∀ (σ Ret : Type) (H : HookDef σ Ret) (b : Bridge σ Ret) (g : Nat) (s : σ),
        (step H b (Ev.notify g s)).state =
          if b.activeSub = some g then s else b.state) := by
  refine ⟨fun _ _ => rfl, fun _ _ => rfl, fun _ _ => rfl, fun _ _ => rfl,
    fun _ => rfl, fun _ _ _ _ => rfl, fun _ => rfl, fun _ _ _ => rfl,
    fun _ => rfl, fun _ => rfl, fun _ _ _ _ => rfl, fun _ _ => rfl,
    fun _ => rfl, fun _ _ => rfl, fun _ => rfl, ?_, ?_, ?_⟩
  · intro σ Ret H b o
    show (renderStep H o b).state = b.state
    rw [renderStep_state]
  · intro σ Ret H b
    show (cleanupPhase b).state = b.state
    rw [cleanupPhase_state]
  · intro σ Ret H b g s
    by_cases h : b.activeSub = some g
    · cases hl : b.lastOpts <;> simp [step, h, hl]
    · simp [step, h]

/-- Claim C9.  Before any controller notification, the externally
observable state of each of the nine hooks after its first render is the
idle snapshot with a null error and an empty feature payload. -/
theorem spec_c9 (o : Options) (pq : Nat → Bool) (aq : Nat → List Announcement) :
    (run subscribeHook o []).output =
      some { status := ControllerStatus.idle, message := none, error := none } ∧
    (run formHook o []).output =
      some { status := ControllerStatus.idle, message := none, error := none } ∧
    (run reactionsHook o []).output =
      some { counts := [], userReactions := [],
             status := ControllerStatus.idle, error := none } ∧
    (run commentsHook o []).output =
      some { comments := [], status := ControllerStatus.idle, error := none } ∧
    (run waitlistHook o []).output =
      some { status := ControllerStatus.idle, message := none, position := none,
             error := none } ∧
    (run viewsHook o []).output =
      some { views := 0, uniqueVisitors := 0, status := ControllerStatus.idle,
             error := none } ∧
    (run feedbackHook o []).output =
      some { status := ControllerStatus.idle, message := none, error := none } ∧
    (run (pollHook pq) o []).output =
      some { poll := none, status := ControllerStatus.idle, error := none,
             hasVoted := false } ∧
    (run (annHook aq) o []).output =
      some { announcements := [], status := ControllerStatus.idle, error := none } := by
  refine ⟨?_, ?_, ?_, ?_, ?_, ?_, ?_, ?_, ?_⟩ <;>
    · show (renderStep _ o (fresh _ o)).output = _
      rw [renderStep_output]
      rfl

/-- Claim C10.  While no controller has been constructed (the ref is
empty), every action forwarding wrapper makes no controller call and its
result resolves, every reset wrapper makes no controller call, the rendered
hasVoted of usePoll is false, and the rendered announcements list of
useAnnouncements is empty. -/
theorem spec_c10 :
    (∀ email, useSubscribe_subscribe none email = ([], PResult.resolved)) ∧
    (∀ data, useForm_submit none data = ([], PResult.resolved)) ∧
    (∀ ty, useReactions_addReaction none ty = ([], PResult.resolved)) ∧
    (∀ ty, useReactions_removeReaction none ty = ([], PResult.resolved)) ∧
    (useReactions_refresh none = ([], PResult.resolved)) ∧
    (∀ author content o, useComments_postComment none author content o =
        ([], PResult.resolved)) ∧
    (useComments_refresh none = ([], PResult.resolved)) ∧
    (∀ email o, useWaitlist_join none email o = ([], PResult.resolved)) ∧
    (useViews_record none = ([], PResult.resolved)) ∧
    (useViews_refresh none = ([], PResult.resolved)) ∧
    (∀ ty content o, useFeedback_submit none ty content o =
        ([], PResult.resolved)) ∧
    (∀ sel, usePoll_vote none sel = ([], PResult.resolved)) ∧
    (usePoll_refresh none = ([], PResult.resolved)) ∧
    (∀ annId, useAnnouncements_dismiss none annId = ([], PResult.resolved)) ∧
    (useAnnouncements_refresh none = ([], PResult.resolved)) ∧
    (useSubscribe_reset none = []) ∧
    (useForm_reset none = []) ∧
    (useWaitlist_reset none = []) ∧
    (useFeedback_reset none = []) ∧
    (∀ (pq : Nat → Bool) (s : PollState),
        ((pollHook pq).renderOut none s).hasVoted = false) ∧
    (∀ (aq : Nat → List Announcement) (s : AnnouncementsState),
        ((annHook aq).renderOut none s).announcements = []) :=
  ⟨fun _ => rfl, fun _ => rfl, fun _ => rfl, fun _ => rfl, rfl,
   fun _ _ _ => rfl, rfl, fun _ _ => rfl, rfl, rfl, fun _ _ _ => rfl,
   fun _ => rfl, rfl, fun _ => rfl, rfl, rfl, rfl, rfl, rfl,
   fun _ _ => rfl, fun _ _ => rfl⟩

end SeriphReact
